import Mathlib

/-
Shallow embedding of `src/script.js` (GreenMaxWebsite controller plus the
free-standing clipboard helper) for verifying the specification's claims.

Modelling conventions:
- DOM elements that the script may or may not find are `Option` fields.
- A JavaScript `TypeError` (null dereference) is an `Except.error` carrying
  the document state at the moment of the throw.
- `localStorage` is an `Option String` (the single `greenmax-theme` key).
- Strings are compared with `==`, matching JS `===` on strings.
-/

set_option autoImplicit false

namespace GreenMax

/-! ## Theme controller (`loadTheme`, `applyTheme`, `toggleTheme`) -/

/-- The document state the theme controller touches: the `data-theme`
attribute on `<body>`, the `className` of the `#themeIcon` element
(`none` when the element is absent from the document), and the
`greenmax-theme` key of `localStorage` (`none` when unset). -/
structure DomState where
  bodyDataTheme : Option String
  themeIcon : Option String
  storage : Option String
deriving DecidableEq, Repr

/-- Controller state: `this.currentTheme` plus the document. -/
structure ThemeState where
  currentTheme : String
  dom : DomState
deriving DecidableEq, Repr

/-- Environment read by `loadTheme` / `setupEventListeners`:
whether `window.matchMedia` exists, and whether the
`(prefers-color-scheme: dark)` media query matches. -/
structure ThemeEnv where
  matchMediaAvailable : Bool
  prefersDark : Bool
deriving DecidableEq, Repr

/-- `window.matchMedia && window.matchMedia('(prefers-color-scheme: dark)').matches`
(script.js line 33). -/
def systemPrefersDark (env : ThemeEnv) : Bool :=
  env.matchMediaAvailable && env.prefersDark

/-- The icon class `applyTheme` writes: `fas fa-sun` for dark, `fas fa-moon`
otherwise (script.js lines 49/52). -/
def themeIconClass (t : String) : String :=
  if t == "dark" then "fas fa-sun" else "fas fa-moon"

/-- `applyTheme` (script.js lines 43-57). Sets or removes the `data-theme`
attribute on the body, then assigns `themeIcon.className`; when the
`#themeIcon` element is absent this assignment throws a `TypeError`
(the lookup is not guarded), with the body attribute already mutated.
On success the current theme is saved to `localStorage` verbatim. -/
def applyTheme (s : ThemeState) : Except ThemeState ThemeState :=
  let d1 : DomState :=
    if s.currentTheme == "dark" then
      { s.dom with bodyDataTheme := some "dark" }
    else
      { s.dom with bodyDataTheme := none }
  match d1.themeIcon with
  | none => Except.error { s with dom := d1 }
  | some _ =>
    let d2 : DomState := { d1 with themeIcon := some (themeIconClass s.currentTheme) }
    Except.ok { s with dom := { d2 with storage := some s.currentTheme } }

/-- `toggleTheme` (script.js lines 62-71): flip `light`/`dark` and re-apply.
The transient 300ms `transition` style it sets and clears is not part of
the modelled state. -/
def toggleTheme (s : ThemeState) : Except ThemeState ThemeState :=
  applyTheme { s with currentTheme := if s.currentTheme == "light" then "dark" else "light" }

/-- `loadTheme` (script.js lines 27-38): read the stored preference
(`if (savedTheme)` is JS-truthy, so the empty string counts as unset),
otherwise fall back to the system color-scheme preference, then apply. -/
def loadTheme (env : ThemeEnv) (s : ThemeState) : Except ThemeState ThemeState :=
  let savedIsSet : Bool :=
    match s.dom.storage with
    | some saved => saved != ""
    | none => false
  let s1 : ThemeState :=
    if savedIsSet then
      { s with currentTheme := s.dom.storage.getD s.currentTheme }
    else if systemPrefersDark env then
      { s with currentTheme := "dark" }
    else
      s
  applyTheme s1

/-- The controller's constructor state (script.js lines 2-4):
`currentTheme` starts as `light`. -/
def initialThemeState (dom : DomState) : ThemeState :=
  { currentTheme := "light", dom := dom }

/-! ## Tab controller (`switchTab`) -/

/-- A tab button (`data-tab` attribute) or tab panel (`id`), with whether its
class list currently holds `active`. -/
structure TabElem where
  name : String
  active : Bool
deriving DecidableEq, Repr

/-- The document state `switchTab` touches: the `.tab-button` elements in
document order, the `.tab-panel` elements in document order, the
controller's `this.currentTab`, and the URL fragment. -/
structure TabState where
  buttons : List TabElem
  panels : List TabElem
  currentTab : String
  urlFragment : Option String
deriving DecidableEq, Repr

/-- `classList.remove('active')` over a whole `querySelectorAll` result
(script.js lines 143-144). -/
def deactivateAll (es : List TabElem) : List TabElem :=
  es.map (fun e => { e with active := false })

/-- `document.querySelector` / `getElementById`: the first element whose
name matches (script.js lines 147-148). -/
def findTab (nm : String) : List TabElem → Option TabElem
  | [] => none
  | e :: rest => if e.name == nm then some e else findTab nm rest

/-- `classList.add('active')` on the first matching element. -/
def activateFirst (nm : String) : List TabElem → List TabElem
  | [] => []
  | e :: rest =>
    if e.name == nm then { e with active := true } :: rest
    else e :: activateFirst nm rest

/-- `switchTab` (script.js lines 138-161): clear `active` from every button
and panel, then — only if both a matching button and a matching panel
exist — mark them active, record `currentTab`, and replace the URL
fragment. The `scrollIntoView` call has no modelled effect. -/
def switchTab (nm : String) (s : TabState) : TabState :=
  let buttons := deactivateAll s.buttons
  let panels := deactivateAll s.panels
  if (findTab nm buttons).isSome && (findTab nm panels).isSome then
    { buttons := activateFirst nm buttons
      panels := activateFirst nm panels
      currentTab := nm
      urlFragment := some nm }
  else
    { s with buttons := buttons, panels := panels }

/-! ## FAQ accordion (`toggleFAQItem`) -/

/-- One `.faq-item`: its `active` class, the `aria-expanded` attribute of its
`h4` question (`none` when no `h4` exists), the `maxHeight` style of its
`.faq-answer` (`none` when absent), and the answer's `scrollHeight`. -/
structure FAQItem where
  active : Bool
  ariaExpanded : Option String
  maxHeight : Option String
  scrollHeight : Nat
deriving DecidableEq, Repr

/-- `toggleFAQItem` (script.js lines 208-224): when active, remove the class,
set `aria-expanded` to `false` and `maxHeight` to `0`; otherwise add the
class, set `aria-expanded` to `true` and `maxHeight` to the answer's
`scrollHeight` in pixels. The question/answer updates are guarded on the
elements existing. -/
def toggleFAQItem (item : FAQItem) : FAQItem :=
  if item.active then
    { item with
        active := false
        ariaExpanded := item.ariaExpanded.map (fun _ => "false")
        maxHeight := item.maxHeight.map (fun _ => "0") }
  else
    { item with
        active := true
        ariaExpanded := item.ariaExpanded.map (fun _ => "true")
        maxHeight := item.maxHeight.map (fun _ => toString item.scrollHeight ++ "px") }

/-! ## Device detection (`detectDevice`) -/

/-- Case-insensitive matching: the script lowercases the user agent and the
regexes carry the `i` flag, so we match lowercase pattern literals against
the lowercased character list. -/
def lowered (s : String) : List Char :=
  s.toList.map Char.toLower

/-- Substring occurrence test, modelling a regex alternation branch that is a
plain literal. -/
def containsSub (sub : List Char) : List Char → Bool
  | [] => sub.isEmpty
  | c :: rest => List.isPrefixOf sub (c :: rest) || containsSub sub rest

/-- A regex that is an alternation of plain literals matches iff some literal
occurs as a substring. -/
def containsAny (hay : List Char) (needles : List String) : Bool :=
  needles.any (fun n => containsSub n.toList hay)

/-- The `android(?!.*mobile)` branch of the tablet regex (script.js line 274):
an occurrence of `android` not followed anywhere later by `mobile`. -/
def androidNotFollowedByMobile : List Char → Bool
  | [] => false
  | c :: rest =>
    (List.isPrefixOf "android".toList (c :: rest)
      && !(containsSub "mobile".toList (List.drop 7 (c :: rest))))
    || androidNotFollowedByMobile rest

/-- Literals of the mobile regex (script.js line 273); the desktop regex
(line 275) adds `tablet`. -/
def mobileUAPatterns : List String :=
  ["android", "webos", "iphone", "ipad", "ipod", "blackberry", "iemobile", "opera mini"]

/-- Environment signals `detectDevice` reads besides the user-agent and
platform strings. `devicePixelDensity` stands for `window.devicePixelRatio`
(0 when the property is falsy). -/
structure DetectEnv where
  innerWidth : Nat
  innerHeight : Nat
  hasOntouchstart : Bool
  maxTouchPoints : Nat
  hoverMatches : Bool
  canVibrate : Bool
  hasConnection : Bool
  saveData : Bool
  devicePixelDensity : ℚ
deriving DecidableEq, Repr

/-- The `this.deviceInfo` record (script.js lines 271-298).
`pixelDensity` stands for the source's `pixelRatio` field. -/
structure DeviceInfo where
  isMobile : Bool
  isTablet : Bool
  isDesktop : Bool
  isIOS : Bool
  isAndroid : Bool
  isMac : Bool
  isWindows : Bool
  hasTouch : Bool
  hasHover : Bool
  canVibrate : Bool
  isChrome : Bool
  isFirefox : Bool
  isSafari : Bool
  hasConnection : Bool
  saveData : Bool
  pixelDensity : ℚ
deriving DecidableEq, Repr

/-- `detectDevice` (script.js lines 267-307): build the snapshot from
user-agent/platform pattern matching and feature probes, then refine —
a `mobile` classification flips to `tablet` when either viewport
dimension exceeds 768 (lines 301-304). -/
def detectDevice (userAgent platform : String) (env : DetectEnv) : DeviceInfo :=
  let ua := lowered userAgent
  let pf := lowered platform
  let base : DeviceInfo :=
    { isMobile := containsAny ua mobileUAPatterns
      isTablet := containsSub "ipad".toList ua || androidNotFollowedByMobile ua
                    || containsSub "tablet".toList ua
      isDesktop := !(containsAny ua (mobileUAPatterns ++ ["tablet"]))
      isIOS := containsAny ua ["iphone", "ipad", "ipod"]
      isAndroid := containsSub "android".toList ua
      isMac := containsSub "mac".toList pf
      isWindows := containsSub "win".toList pf
      hasTouch := env.hasOntouchstart || env.maxTouchPoints > 0
      hasHover := env.hoverMatches
      canVibrate := env.canVibrate
      isChrome := containsSub "chrome".toList ua
      isFirefox := containsSub "firefox".toList ua
      isSafari := containsSub "safari".toList ua && !(containsSub "chrome".toList ua)
      hasConnection := env.hasConnection
      saveData := env.saveData
      pixelDensity := if env.devicePixelDensity == 0 then 1 else env.devicePixelDensity }
  if base.isMobile && (env.innerWidth > 768 || env.innerHeight > 768) then
    { base with isTablet := true, isMobile := false }
  else
    base

/-! ## Injected style blocks and marker classes -/

/-- The document state the interface optimizer touches: the ids of the
`<style>` elements in `<head>` in insertion order (duplicates possible),
and the class list of `<body>`. -/
structure PageStyles where
  head : List String
  bodyClasses : List String
deriving DecidableEq, Repr

/-- `document.querySelector('#id')` followed by `.remove()`: deletes the
first element with that id, if any. -/
def removeFirst (idn : String) : List String → List String
  | [] => []
  | x :: xs => if x == idn then xs else x :: removeFirst idn xs

/-- `classList.add`: a class list is a token set, so adding an already
present class is a no-op. -/
def addClass (c : String) (cs : List String) : List String :=
  if cs.contains c then cs else cs ++ [c]

/-- `classList.remove`. -/
def removeClass (c : String) (cs : List String) : List String :=
  cs.filter (fun x => x != c)

/-- `optimizeTouchInteractions` (script.js lines 390-430), restricted to its
style-block effect: on touch devices, remove the existing
`#touch-optimization` style if present and append a fresh one. The haptic
listener wiring has no modelled document effect. -/
def optimizeTouchInteractions (dev : DeviceInfo) (st : PageStyles) : PageStyles :=
  if !dev.hasTouch then st
  else { st with head := removeFirst "touch-optimization" st.head ++ ["touch-optimization"] }

/-- `pixelRatio <= 1 || (connection && connection.saveData)`
(script.js lines 451-452). -/
def isLowEndDevice (dev : DeviceInfo) : Bool :=
  dev.pixelDensity ≤ 1 || (dev.hasConnection && dev.saveData)

/-- `optimizePerformance` (script.js lines 449-474): on low-end devices or
under reduced motion, replace the `#performance-optimization` style block
(remove the existing one if present, then append). -/
def optimizePerformance (dev : DeviceInfo) (reducedMotion : Bool) (st : PageStyles) : PageStyles :=
  if isLowEndDevice dev || reducedMotion then
    { st with
        head := removeFirst "performance-optimization" st.head ++ ["performance-optimization"] }
  else st

/-- `adjustLayoutForScreen` (script.js lines 479-551): unconditionally
replace the `#layout-optimization` style block (its CSS text varies with
the snapshots, its id does not). -/
def adjustLayoutForScreen (st : PageStyles) : PageStyles :=
  { st with head := removeFirst "layout-optimization" st.head ++ ["layout-optimization"] }

/-- Battery status as read from the `getBattery` promise. -/
structure Battery where
  level : ℚ
  charging : Bool
deriving DecidableEq, Repr

/-- `battery.level < 0.2 || !battery.charging` (script.js line 568). -/
def batteryLow (b : Battery) : Bool :=
  b.level < 1/5 || !b.charging

/-- The `optimizeForBattery` closure inside `setupDynamicOptimization`
(script.js lines 567-585): when the battery is low, add the `low-battery`
class and append a `#battery-optimization` style element — with no
remove-if-present step in this branch; otherwise remove the class and
remove the first existing `#battery-optimization` element. -/
def optimizeForBattery (b : Battery) (st : PageStyles) : PageStyles :=
  if batteryLow b then
    { head := st.head ++ ["battery-optimization"]
      bodyClasses := addClass "low-battery" st.bodyClasses }
  else
    { head := removeFirst "battery-optimization" st.head
      bodyClasses := removeClass "low-battery" st.bodyClasses }

/-! ## Clipboard helper (`copyToClipboard`) -/

/-- Environment of the free-standing `copyToClipboard` (script.js
lines 642-666): whether `navigator.clipboard` exists, whether
`window.isSecureContext` holds, whether the `writeText` promise rejects,
and whether `document.execCommand('copy')` throws or else which boolean
it returns. -/
structure ClipEnv where
  clipboardAPIAvailable : Bool
  isSecureContext : Bool
  writeTextRejects : Bool
  execCommandThrows : Bool
  execCommandResult : Bool
deriving DecidableEq, Repr

/-- `copyToClipboard` (script.js lines 642-666): primary path when
`navigator.clipboard && window.isSecureContext`, returning `true` on a
successful write; otherwise the hidden-textarea fallback returns
`execCommand`'s boolean; any exception on either path is caught, logged,
and turned into `false`. -/
def copyToClipboard (env : ClipEnv) : Bool :=
  if env.clipboardAPIAvailable && env.isSecureContext then
    if env.writeTextRejects then false else true
  else
    if env.execCommandThrows then false else env.execCommandResult

/-- A concrete theme state whose document markers are consistent with a
`light` theme. -/
def exThemeState : ThemeState :=
  { currentTheme := "light", dom := ⟨none, some "fas fa-moon", none⟩ }

/-- A concrete tab document: the `general` tab is active, mirrored in the
URL fragment; `faq` is inactive. -/
def exTabState : TabState :=
  { buttons := [⟨"general", true⟩, ⟨"faq", false⟩]
    panels := [⟨"general", true⟩, ⟨"faq", false⟩]
    currentTab := "general"
    urlFragment := some "general" }

/-- A concrete touch-capable, low-end device snapshot. -/
def exTouchDevice : DeviceInfo :=
  { isMobile := true, isTablet := false, isDesktop := false
    isIOS := false, isAndroid := true, isMac := false, isWindows := false
    hasTouch := true, hasHover := false, canVibrate := true
    isChrome := true, isFirefox := false, isSafari := false
    hasConnection := true, saveData := true, pixelDensity := 1 }

/-! ## Helper lemmas -/

/-- When the `#themeIcon` element exists, `applyTheme` succeeds and fully
determines the resulting document state. -/
theorem applyTheme_ok_of_icon (s : ThemeState) (ic : String)
    (hi : s.dom.themeIcon = some ic) :
    applyTheme s = Except.ok
      { s with dom :=
        { bodyDataTheme := if s.currentTheme == "dark" then some "dark" else none
          themeIcon := some (themeIconClass s.currentTheme)
          storage := some s.currentTheme } } := by
  unfold applyTheme
  cases hc : s.currentTheme == "dark" <;> simp [hc, hi]

/-- With no stored preference, `loadTheme` from the constructor state applies
the system-derived theme. -/
theorem loadTheme_eq_of_no_saved (env : ThemeEnv) (dom : DomState)
    (hs : dom.storage = none) :
    loadTheme env (initialThemeState dom) =
      applyTheme { currentTheme := if systemPrefersDark env then "dark" else "light"
                   dom := dom } := by
  unfold loadTheme initialThemeState
  cases hp : systemPrefersDark env <;> simp [hs, hp]

/-! ## Claim theorems -/

/-- C2 (counterexample): the theme-icon lookup in `applyTheme` is not
guarded. With the `#themeIcon` element absent from the document,
`applyTheme` does not complete: it raises (a `TypeError` null
dereference), contradicting the claim that every theme operation
degrades to a no-op for a missing element. -/
theorem applyTheme_missing_icon_raises :
    applyTheme { currentTheme := "light", dom := ⟨some "dark", none, none⟩ } =
      Except.error { currentTheme := "light", dom := ⟨none, none, none⟩ } := rfl

/-- C2 (amended): theme application is best-effort for every element except
the theme icon: `applyTheme` (and hence `toggleTheme`) completes exactly
when the `#themeIcon` element is present, and raises a `TypeError` when
it is absent. -/
theorem applyTheme_ok_iff_icon_present (s : ThemeState) :
    (applyTheme s).isOk = s.dom.themeIcon.isSome ∧
    (toggleTheme s).isOk = s.dom.themeIcon.isSome := by
  have key : ∀ r : ThemeState, (applyTheme r).isOk = r.dom.themeIcon.isSome := by
    intro r
    unfold applyTheme
    cases hc : r.currentTheme == "dark" <;> cases hi : r.dom.themeIcon <;>
      simp [hc, hi, Except.isOk, Except.toBool]
  exact ⟨key s, key ⟨if s.currentTheme == "light" then "dark" else "light", s.dom⟩⟩

/-- C4 (counterexample): loading the theme at startup with no stored
preference does write the stored key — `applyTheme` unconditionally
persists the current theme, so after `loadTheme` on a preference-free
document the key holds `light`. -/
theorem loadTheme_no_saved_writes_storage :
    loadTheme ⟨false, false⟩ (initialThemeState ⟨none, some "fas fa-moon", none⟩) =
      Except.ok { currentTheme := "light", dom := ⟨none, some "fas fa-moon", some "light"⟩ } := rfl

/-- C4 (amended): the stored key is written on every successful theme
application, not only on user toggles or system-preference changes: in
particular, loading at startup with no stored preference persists the
applied (system-derived or default) theme. -/
theorem loadTheme_startup_writes_applied_theme (env : ThemeEnv) (dom : DomState)
    (hs : dom.storage = none) (hi : dom.themeIcon.isSome = true) :
    ∃ s2, loadTheme env (initialThemeState dom) = Except.ok s2 ∧
      s2.dom.storage = some s2.currentTheme := by
  obtain ⟨ic, hic⟩ := Option.isSome_iff_exists.mp hi
  rw [loadTheme_eq_of_no_saved env dom hs, applyTheme_ok_of_icon _ ic hic]
  exact ⟨_, rfl, rfl⟩

/-- C4 witness for the amended theorem, at a dark-preferring system with no
stored preference. -/
theorem loadTheme_startup_writes_applied_theme_w :
    ∃ s2, loadTheme ⟨true, true⟩ (initialThemeState ⟨none, some "fas fa-moon", none⟩) =
        Except.ok s2 ∧ s2.dom.storage = some s2.currentTheme :=
  loadTheme_startup_writes_applied_theme ⟨true, true⟩ ⟨none, some "fas fa-moon", none⟩ rfl rfl

/-- C5: from a theme state whose value is `light` or `dark` and whose
document markers are consistent with it, toggling twice restores the
in-memory theme, the `data-theme` attribute, and the icon class; the
attribute is present exactly when the theme is dark. -/
theorem toggleTheme_twice_restores (s : ThemeState)
    (ht : s.currentTheme = "light" ∨ s.currentTheme = "dark")
    (hi : s.dom.themeIcon = some (themeIconClass s.currentTheme))
    (hb : s.dom.bodyDataTheme = (if s.currentTheme == "dark" then some "dark" else none)) :
    ∃ s1 s2, toggleTheme s = Except.ok s1 ∧ toggleTheme s1 = Except.ok s2 ∧
      s2.currentTheme = s.currentTheme ∧
      s2.dom.bodyDataTheme = s.dom.bodyDataTheme ∧
      s2.dom.themeIcon = s.dom.themeIcon ∧
      s2.dom.bodyDataTheme.isSome = (s2.currentTheme == "dark") := by
  rcases ht with h | h
  · have hi' : s.dom.themeIcon = some "fas fa-moon" := by rw [hi, h]; rfl
    have hb' : s.dom.bodyDataTheme = none := by rw [hb, h]; rfl
    have e0 : toggleTheme s = applyTheme ⟨"dark", s.dom⟩ := by
      unfold toggleTheme
      rw [h]
      rfl
    have e1 : toggleTheme s =
        Except.ok ⟨"dark", ⟨some "dark", some "fas fa-sun", some "dark"⟩⟩ := by
      rw [e0, applyTheme_ok_of_icon ⟨"dark", s.dom⟩ "fas fa-moon" hi']
      rfl
    have e2 : toggleTheme ⟨"dark", ⟨some "dark", some "fas fa-sun", some "dark"⟩⟩ =
        Except.ok ⟨"light", ⟨none, some "fas fa-moon", some "light"⟩⟩ := rfl
    refine ⟨_, _, e1, e2, h.symm, ?_, ?_, rfl⟩
    · rw [hb']
    · rw [hi']
  · have hi' : s.dom.themeIcon = some "fas fa-sun" := by rw [hi, h]; rfl
    have hb' : s.dom.bodyDataTheme = some "dark" := by rw [hb, h]; rfl
    have e0 : toggleTheme s = applyTheme ⟨"light", s.dom⟩ := by
      unfold toggleTheme
      rw [h]
      rfl
    have e1 : toggleTheme s =
        Except.ok ⟨"light", ⟨none, some "fas fa-moon", some "light"⟩⟩ := by
      rw [e0, applyTheme_ok_of_icon ⟨"light", s.dom⟩ "fas fa-sun" hi']
      rfl
    have e2 : toggleTheme ⟨"light", ⟨none, some "fas fa-moon", some "light"⟩⟩ =
        Except.ok ⟨"dark", ⟨some "dark", some "fas fa-sun", some "dark"⟩⟩ := rfl
    refine ⟨_, _, e1, e2, h.symm, ?_, ?_, rfl⟩
    · rw [hb']
    · rw [hi']

/-- C5 witness: a concrete consistent light state round-trips under two
toggles. -/
theorem toggleTheme_twice_restores_w :
    ∃ s1 s2, toggleTheme exThemeState = Except.ok s1 ∧ toggleTheme s1 = Except.ok s2 ∧
      s2.currentTheme = exThemeState.currentTheme ∧
      s2.dom.bodyDataTheme = exThemeState.dom.bodyDataTheme ∧
      s2.dom.themeIcon = exThemeState.dom.themeIcon ∧
      s2.dom.bodyDataTheme.isSome = (s2.currentTheme == "dark") :=
  toggleTheme_twice_restores exThemeState (Or.inl rfl) rfl rfl

/-- C7: at load time with no stored preference, the applied theme follows the
system color-scheme preference — `dark` exactly when the
`(prefers-color-scheme: dark)` query matches, `light` otherwise — and
the `data-theme` attribute reflects it. -/
theorem loadTheme_no_saved_follows_system (env : ThemeEnv) (dom : DomState)
    (hs : dom.storage = none) (hi : dom.themeIcon.isSome = true) :
    ∃ s2, loadTheme env (initialThemeState dom) = Except.ok s2 ∧
      s2.currentTheme = (if systemPrefersDark env then "dark" else "light") ∧
      s2.dom.bodyDataTheme.isSome = systemPrefersDark env := by
  obtain ⟨ic, hic⟩ := Option.isSome_iff_exists.mp hi
  rw [loadTheme_eq_of_no_saved env dom hs, applyTheme_ok_of_icon _ ic hic]
  refine ⟨_, rfl, rfl, ?_⟩
  cases hp : systemPrefersDark env <;> simp [hp]

/-- C7 witness: with a dark system preference and no stored key, the loaded
theme is dark. -/
theorem loadTheme_no_saved_follows_system_w :
    ∃ s2, loadTheme ⟨true, true⟩ (initialThemeState ⟨none, some "fas fa-moon", none⟩) =
        Except.ok s2 ∧
      s2.currentTheme = (if systemPrefersDark ⟨true, true⟩ then "dark" else "light") ∧
      s2.dom.bodyDataTheme.isSome = systemPrefersDark ⟨true, true⟩ :=
  loadTheme_no_saved_follows_system ⟨true, true⟩ ⟨none, some "fas fa-moon", none⟩ rfl rfl

/-- C10: `applyTheme` treats any current theme other than `dark` as light —
removing the `data-theme` attribute and setting the moon icon — while
persisting the current value verbatim; consequently a stored preference
that is neither `light` nor `dark` (and nonempty, hence JS-truthy)
renders as the light theme and is written back unchanged by the startup
load. -/
theorem applyTheme_nondark_renders_light (s : ThemeState) (env : ThemeEnv)
    (dom : DomState) (t : String) :
    (s.currentTheme ≠ "dark" → s.dom.themeIcon.isSome = true →
      ∃ s2, applyTheme s = Except.ok s2 ∧ s2.dom.bodyDataTheme = none ∧
        s2.dom.themeIcon = some "fas fa-moon" ∧ s2.dom.storage = some s.currentTheme ∧
        s2.currentTheme = s.currentTheme) ∧
    (dom.storage = some t → t ≠ "" → t ≠ "dark" → dom.themeIcon.isSome = true →
      ∃ s2, loadTheme env (initialThemeState dom) = Except.ok s2 ∧
        s2.currentTheme = t ∧ s2.dom.bodyDataTheme = none ∧
        s2.dom.themeIcon = some "fas fa-moon" ∧ s2.dom.storage = some t) := by
  constructor
  · intro hnd hi
    obtain ⟨ic, hic⟩ := Option.isSome_iff_exists.mp hi
    rw [applyTheme_ok_of_icon _ ic hic]
    have hc : (s.currentTheme == "dark") = false := by
      simp [hnd]
    exact ⟨_, rfl, by simp [hc], by simp [themeIconClass, hc], rfl, rfl⟩
  · intro hsv hne hnd hi
    obtain ⟨ic, hic⟩ := Option.isSome_iff_exists.mp hi
    have hset : loadTheme env (initialThemeState dom) =
        applyTheme { currentTheme := t, dom := dom } := by
      unfold loadTheme initialThemeState
      simp [hsv, hne]
    rw [hset, applyTheme_ok_of_icon _ ic hic]
    have hc : (t == "dark") = false := by simp [hnd]
    exact ⟨_, rfl, rfl, by simp [hc], by simp [themeIconClass, hc], rfl⟩

/-- C10 witness: the non-enumerated stored value `weird` renders light and is
persisted back unchanged. -/
theorem applyTheme_nondark_renders_light_w :
    ∃ s2, loadTheme ⟨false, false⟩
        (initialThemeState ⟨none, some "fas fa-moon", some "weird"⟩) = Except.ok s2 ∧
      s2.currentTheme = "weird" ∧ s2.dom.bodyDataTheme = none ∧
      s2.dom.themeIcon = some "fas fa-moon" ∧ s2.dom.storage = some "weird" :=
  (applyTheme_nondark_renders_light exThemeState ⟨false, false⟩
      ⟨none, some "fas fa-moon", some "weird"⟩ "weird").2
    rfl (by decide) (by decide) rfl

/-- Finding a tab by name is insensitive to clearing `active` classes. -/
theorem findTab_deactivateAll (nm : String) (es : List TabElem) :
    (findTab nm (deactivateAll es)).isSome = (findTab nm es).isSome := by
  induction es with
  | nil => rfl
  | cons e rest ih =>
    simp only [deactivateAll, List.map_cons] at ih ⊢
    cases hc : e.name == nm <;> simp [findTab, hc, ih]

/-- After clearing, every element's `active` flag is down. -/
theorem deactivateAll_all_inactive (es : List TabElem) :
    ((deactivateAll es).all fun b => !b.active) = true := by
  induction es with
  | nil => rfl
  | cons e rest ih =>
    rw [deactivateAll, List.map_cons, List.all_cons]
    exact ih

/-- C1 (counterexample): `switchTab('unknown')` does not leave the previous
selection's `active` marking in place — the active classes are cleared
from every button and panel before the existence guard runs, so the
previously active `general` button and panel lose their marking (while
`currentTab` and the URL fragment do stay unchanged). -/
theorem switchTab_unknown_clears_active :
    ((switchTab "unknown" exTabState).buttons.any fun b => b.active) = false ∧
    ((switchTab "unknown" exTabState).panels.any fun p => p.active) = false ∧
    (exTabState.buttons.any fun b => b.active) = true ∧
    (exTabState.panels.any fun p => p.active) = true ∧
    (switchTab "unknown" exTabState).currentTab = exTabState.currentTab ∧
    (switchTab "unknown" exTabState).urlFragment = exTabState.urlFragment := by
  decide

/-- C1 (amended): for a name with no matching button/panel pair, `switchTab`
leaves `currentTab` and the URL fragment unchanged, but clears the
`active` marking from every tab button and panel (so the previous
selection loses its marking rather than keeping it). -/
theorem switchTab_unknown_no_pair (nm : String) (s : TabState)
    (h : (findTab nm s.buttons).isSome = false ∨ (findTab nm s.panels).isSome = false) :
    (switchTab nm s).currentTab = s.currentTab ∧
    (switchTab nm s).urlFragment = s.urlFragment ∧
    ((switchTab nm s).buttons.all fun b => !b.active) = true ∧
    ((switchTab nm s).panels.all fun p => !p.active) = true := by
  have hcond : ((findTab nm (deactivateAll s.buttons)).isSome &&
      (findTab nm (deactivateAll s.panels)).isSome) = false := by
    rw [findTab_deactivateAll, findTab_deactivateAll]
    rcases h with h | h <;> simp [h]
  have hres : switchTab nm s =
      { s with buttons := deactivateAll s.buttons, panels := deactivateAll s.panels } := by
    simp [switchTab, hcond]
  rw [hres]
  exact ⟨rfl, rfl, deactivateAll_all_inactive s.buttons, deactivateAll_all_inactive s.panels⟩

/-- C1 witness for the amended theorem: the concrete document with `general`
active, switched to the unknown name. -/
theorem switchTab_unknown_no_pair_w :
    (switchTab "unknown" exTabState).currentTab = exTabState.currentTab ∧
    (switchTab "unknown" exTabState).urlFragment = exTabState.urlFragment ∧
    ((switchTab "unknown" exTabState).buttons.all fun b => !b.active) = true ∧
    ((switchTab "unknown" exTabState).panels.all fun p => !p.active) = true :=
  switchTab_unknown_no_pair "unknown" exTabState (Or.inl (by decide))

/-- C6: `copyToClipboard` returns `true` when the primary clipboard path
succeeds, returns the fallback `execCommand` technique's actual boolean
when the primary path is unavailable, and returns `false` instead of
propagating when either path throws. -/
theorem copyToClipboard_result_spec (env : ClipEnv) :
    ((env.clipboardAPIAvailable && env.isSecureContext) = true →
      env.writeTextRejects = false → copyToClipboard env = true) ∧
    ((env.clipboardAPIAvailable && env.isSecureContext) = false →
      env.execCommandThrows = false → copyToClipboard env = env.execCommandResult) ∧
    ((env.clipboardAPIAvailable && env.isSecureContext) = true →
      env.writeTextRejects = true → copyToClipboard env = false) ∧
    ((env.clipboardAPIAvailable && env.isSecureContext) = false →
      env.execCommandThrows = true → copyToClipboard env = false) := by
  rcases env with ⟨a, sctx, w, et, er⟩
  cases a <;> cases sctx <;> cases w <;> cases et <;> cases er <;> decide

/-- C6 witness: the four paths at concrete environments — primary success,
fallback success, primary throw, fallback throw. -/
theorem copyToClipboard_result_spec_w :
    copyToClipboard ⟨true, true, false, false, false⟩ = true ∧
    copyToClipboard ⟨false, false, false, false, true⟩ = true ∧
    copyToClipboard ⟨true, true, true, false, false⟩ = false ∧
    copyToClipboard ⟨false, false, false, true, true⟩ = false :=
  ⟨(copyToClipboard_result_spec ⟨true, true, false, false, false⟩).1 rfl rfl,
   (copyToClipboard_result_spec ⟨false, false, false, false, true⟩).2.1 rfl rfl,
   (copyToClipboard_result_spec ⟨true, true, true, false, false⟩).2.2.1 rfl rfl,
   (copyToClipboard_result_spec ⟨false, false, false, true, true⟩).2.2.2 rfl rfl⟩

/-- C8: toggling an initially collapsed FAQ item (with its question and
answer elements present) twice returns `aria-expanded` to `false` and
the answer's `maxHeight` to `0`, with the attribute in sync with the
expanded state on each toggle. -/
theorem toggleFAQItem_twice (item : FAQItem)
    (h0 : item.active = false)
    (hq : item.ariaExpanded.isSome = true)
    (ha : item.maxHeight.isSome = true) :
    (toggleFAQItem item).active = true ∧
    (toggleFAQItem item).ariaExpanded = some "true" ∧
    (toggleFAQItem (toggleFAQItem item)).active = false ∧
    (toggleFAQItem (toggleFAQItem item)).ariaExpanded = some "false" ∧
    (toggleFAQItem (toggleFAQItem item)).maxHeight = some "0" := by
  obtain ⟨q, hq'⟩ := Option.isSome_iff_exists.mp hq
  obtain ⟨a, ha'⟩ := Option.isSome_iff_exists.mp ha
  simp [toggleFAQItem, h0, hq', ha']

/-- C8 witness: a concrete collapsed item with a 120px-tall answer. -/
theorem toggleFAQItem_twice_w :
    (toggleFAQItem ⟨false, some "false", some "0", 120⟩).active = true ∧
    (toggleFAQItem ⟨false, some "false", some "0", 120⟩).ariaExpanded = some "true" ∧
    (toggleFAQItem (toggleFAQItem ⟨false, some "false", some "0", 120⟩)).active = false ∧
    (toggleFAQItem (toggleFAQItem ⟨false, some "false", some "0", 120⟩)).ariaExpanded =
      some "false" ∧
    (toggleFAQItem (toggleFAQItem ⟨false, some "false", some "0", 120⟩)).maxHeight = some "0" :=
  toggleFAQItem_twice ⟨false, some "false", some "0", 120⟩ rfl rfl rfl

/-- C9: a user agent the patterns initially classify as mobile is
reclassified as tablet whenever either viewport dimension exceeds 768
pixels, and the resulting snapshot reports tablet and no longer reports
mobile. -/
theorem detectDevice_mobile_reclassified (ua pf : String) (env : DetectEnv)
    (hm : containsAny (lowered ua) mobileUAPatterns = true)
    (hd : env.innerWidth > 768 ∨ env.innerHeight > 768) :
    (detectDevice ua pf env).isTablet = true ∧ (detectDevice ua pf env).isMobile = false := by
  have h1 : (decide (env.innerWidth > 768) || decide (env.innerHeight > 768)) = true := by
    rcases hd with h | h <;> simp [h]
  simp [detectDevice, hm, h1]

/-- C9 witness: an `iphone` user agent on an 800x600 viewport becomes a
tablet. -/
theorem detectDevice_mobile_reclassified_w :
    (detectDevice "iphone" "" ⟨800, 600, false, 0, false, false, false, false, 2⟩).isTablet =
      true ∧
    (detectDevice "iphone" "" ⟨800, 600, false, 0, false, false, false, false, 2⟩).isMobile =
      false :=
  detectDevice_mobile_reclassified "iphone" "" ⟨800, 600, false, 0, false, false, false, false, 2⟩
    (by decide) (Or.inl (by decide))

/-- Removing the first occurrence drops the count by one (or keeps it at
zero). -/
theorem count_removeFirst (idn : String) (l : List String) :
    (removeFirst idn l).count idn = l.count idn - 1 := by
  induction l with
  | nil => rfl
  | cons x xs ih =>
    cases hx : x == idn <;> simp [removeFirst, hx, List.count_cons, ih]

/-- A remove-if-present-then-append cycle leaves exactly one copy whenever at
most one was present. -/
theorem count_replace (idn : String) (l : List String) (h : l.count idn ≤ 1) :
    (removeFirst idn l ++ [idn]).count idn = 1 := by
  rw [List.count_append, count_removeFirst]
  simp
  omega

/-- C3 (counterexample): the low-battery style block is not replaced — two
consecutive low-battery signals leave two `#battery-optimization` style
elements in the head, so the document does not hold exactly one style
element per named id. -/
theorem batteryBlock_duplicates :
    ((optimizeForBattery ⟨0, false⟩ (optimizeForBattery ⟨0, false⟩ ⟨[], []⟩)).head.count
      "battery-optimization") = 2 := by
  have hb : batteryLow ⟨0, false⟩ = true := by simp [batteryLow]
  have e : (optimizeForBattery ⟨0, false⟩ (optimizeForBattery ⟨0, false⟩ ⟨[], []⟩)).head =
      ["battery-optimization", "battery-optimization"] := by
    simp [optimizeForBattery, hb, addClass]
  rw [e]
  decide

/-- C3 (amended): the touch-target, performance, and layout style blocks are
idempotently replaced (remove-if-present, then insert), so re-running
their operations keeps exactly one style element per id; the low-battery
block, however, is appended without a remove step, so each low-battery
trigger increases its count by one (duplicates accumulate until the
battery recovers). -/
theorem styleBlocks_replace_except_battery (dev : DeviceInfo) (rm : Bool) (b : Battery)
    (st : PageStyles)
    (ht : dev.hasTouch = true)
    (hp : (isLowEndDevice dev || rm) = true)
    (hb : batteryLow b = true)
    (h1 : st.head.count "touch-optimization" ≤ 1)
    (h2 : st.head.count "performance-optimization" ≤ 1)
    (h3 : st.head.count "layout-optimization" ≤ 1) :
    (optimizeTouchInteractions dev st).head.count "touch-optimization" = 1 ∧
    (optimizePerformance dev rm st).head.count "performance-optimization" = 1 ∧
    (adjustLayoutForScreen st).head.count "layout-optimization" = 1 ∧
    (optimizeForBattery b st).head.count "battery-optimization" =
      st.head.count "battery-optimization" + 1 := by
  refine ⟨?_, ?_, ?_, ?_⟩
  · simp [optimizeTouchInteractions, ht, count_replace _ _ h1]
  · simp [optimizePerformance, hp, count_replace _ _ h2]
  · simp [adjustLayoutForScreen, count_replace _ _ h3]
  · simp [optimizeForBattery, hb, List.count_append]

/-- C3 witness for the amended theorem: on an empty head with a touch-capable
low-end device and a low battery, the three replaceable blocks come out
at exactly one copy while the battery block count rises from 0 to 1. -/
theorem styleBlocks_replace_except_battery_w :
    (optimizeTouchInteractions exTouchDevice ⟨[], []⟩).head.count "touch-optimization" = 1 ∧
    (optimizePerformance exTouchDevice false ⟨[], []⟩).head.count "performance-optimization" =
      1 ∧
    (adjustLayoutForScreen ⟨[], []⟩).head.count "layout-optimization" = 1 ∧
    (optimizeForBattery ⟨1, false⟩ ⟨[], []⟩).head.count "battery-optimization" =
      (⟨[], []⟩ : PageStyles).head.count "battery-optimization" + 1 :=
  styleBlocks_replace_except_battery exTouchDevice false ⟨1, false⟩ ⟨[], []⟩
    rfl (by simp [isLowEndDevice, exTouchDevice]) (by simp [batteryLow])
    (by decide) (by decide) (by decide)

end GreenMax
